import Mathlib

/-!
Shallow embedding of `src/3rd_party/SimplePipeLine.py`, a ParaView Catalyst
co-processing adaptor script.  The script is straight-line configuration code
against the host library (`paraview.simple`, `paraview.coprocessing`): it
builds a fixed pipeline, registers outputs with a coprocessor object, and
exposes two per-timestep callbacks, `RequestDataDescription` and
`DoCoProcessing`.

We embed each host-library invocation as an event of type `HostCall`, the
host objects the script configures as Lean structures with the literal field
values taken from the source, and the two callbacks both as trace producers
and (for error-propagation reasoning) as monadic computations over an
arbitrary fallible host.
-/

/-- The data-description object handed to both callbacks by the host at each
timestep.  Only the two observations the script makes of it are modelled:
`GetForceOutput()` and `GetNumberOfInputDescriptions()`. -/
structure DataDescription where
  GetForceOutput : Bool
  GetNumberOfInputDescriptions : Nat
deriving DecidableEq, Repr

/-- One invocation of a host-library method, as performed by the script.
Constructors exist for every host call the script makes, plus constructors
for synchronization / thread / process / scheduling primitives, which the
script never invokes (used to state their absence). -/
inductive HostCall where
  | disableFirstRenderCameraReset
  | createView (viewType : String)
  | registerView (filename : String) (freq fittoscreen magnification width height : Nat)
  | createProducer (inputName : String)
  | createXMLPUnstructuredGridWriter (inputName : String)
  | registerWriter (filename : String) (freq : Nat)
  | getColorTransferFunction (arrayName : String)
  | getOpacityTransferFunction (arrayName : String)
  | showData (sourceName : String)
  | setScalarBarVisibility (visible : Bool)
  | getScalarBar (lutName : String)
  | setUpdateFrequencies (freqs : List (String × List Nat))
  | enableLiveVisualization (enabled : Bool) (frequency : Nat)
  | allFieldsOn (inputIndex : Nat)
  | generateMeshOn (inputIndex : Nat)
  | loadRequestedData
  | updateProducers
  | writeData
  | writeImages (rescale_lookuptable : Bool)
  | doLiveVisualization (host : String) (port : Nat)
  | acquireLock
  | spawnThread
  | spawnProcess
  | scheduleWork
deriving DecidableEq, Repr

/-- The render view configured by `_CreatePipeline`, with the literal
property values assigned in the source. -/
structure RenderView where
  ViewSize : List Nat
  AxesGrid : String
  CenterOfRotation : List ℚ
  StereoType : Nat
  CameraPosition : List ℚ
  CameraFocalPoint : List ℚ
  CameraViewUp : List ℚ
  CameraParallelScale : ℚ
  Background : List ℚ

/-- A producer created from a simulation input via
`coprocessor.CreateProducer(datadescription, name)`. -/
structure Producer where
  inputName : String
deriving DecidableEq, Repr

/-- The `servermanager.writers.XMLPUnstructuredGridWriter` node; its only
configured property is its `Input` connection. -/
structure XMLPUnstructuredGridWriter where
  Input : Producer
deriving DecidableEq, Repr

/-- A color transfer function as returned by `GetColorTransferFunction`. -/
structure ColorTransferFunction where
  arrayName : String
  RGBPoints : List ℚ
  ScalarRangeInitialized : ℚ

/-- An opacity transfer function as returned by `GetOpacityTransferFunction`. -/
structure OpacityTransferFunction where
  arrayName : String
  Points : List ℚ
  ScalarRangeInitialized : ℚ

/-- The display (representation) object returned by `Show(visnek3d, renderView1)`,
with the properties the script sets on it. -/
structure Display where
  ColorArrayName : List String
  LookupTableArrayName : String
  ScalarOpacityUnitDistance : ℚ
  scalarBarVisible : Bool

/-- The color legend object returned by `GetScalarBar(pressureLUT, renderView1)`. -/
structure ScalarBar where
  Title : String
  ComponentTitle : String
deriving DecidableEq, Repr

/-- The registration record passed to `coprocessor.RegisterView`. -/
structure ViewRegistration where
  filename : String
  freq : Nat
  fittoscreen : Nat
  magnification : Nat
  width : Nat
  height : Nat
deriving DecidableEq, Repr

/-- The registration record passed to `coprocessor.RegisterWriter`. -/
structure WriterRegistration where
  filename : String
  freq : Nat
deriving DecidableEq, Repr

/-- The `Pipeline` object built by `_CreatePipeline`: one field per pipeline /
scene object the source constructs. -/
structure Pipeline where
  renderView1 : RenderView
  visnek3d : Producer
  parallelUnstructuredGridWriter1 : XMLPUnstructuredGridWriter
  pressureLUT : ColorTransferFunction
  pressurePWF : OpacityTransferFunction
  visnek3dDisplay : Display
  pressureLUTColorBar : ScalarBar

/-- The observable state of the `CoProcessor` object: what has been
registered with it and the module-level settings applied to it. -/
structure CoProcessorState where
  registeredViews : List (ViewRegistration)
  registeredWriters : List (WriterRegistration)
  updateFrequencies : List (String × List Nat)
  liveVisualization : Option (Bool × Nat)

/-- `_CreatePipeline(coprocessor, datadescription)`: builds the pipeline
objects with the literal values of the source, registers the view and the
writer with the coprocessor, and returns the `Pipeline` together with the
updated coprocessor state and the trace of host calls it performed, in
source order. -/
def _CreatePipeline (cop : CoProcessorState) (dd : DataDescription) :
    Pipeline × CoProcessorState × List HostCall :=
  let renderView1 : RenderView :=
    { ViewSize := [1546, 836]
      AxesGrid := "GridAxes3DActor"
      CenterOfRotation := [0.5, 0.5, 0.0]
      StereoType := 0
      CameraPosition := [0.9191636267160087, -2.2439272781775306, 1.8685067216412112]
      CameraFocalPoint := [0.5000000000000001, 0.49999999999999967, 1.4971058460759092e-15]
      CameraViewUp := [0.949015085039894, 0.2631540862484342, 0.17355199583258799]
      CameraParallelScale := 0.8660254037844386
      Background := [0.32, 0.34, 0.43] }
  let viewReg : ViewRegistration :=
    { filename := "image_%t.png", freq := 1, fittoscreen := 1, magnification := 1,
      width := 1546, height := 836 }
  let visnek3d : Producer := { inputName := "input" }
  let parallelUnstructuredGridWriter1 : XMLPUnstructuredGridWriter :=
    { Input := visnek3d }
  let writerReg : WriterRegistration := { filename := "filename_%t.pvtu", freq := 1 }
  let pressureLUT : ColorTransferFunction :=
    { arrayName := "pressure"
      RGBPoints := [0.0, 0.231373, 0.298039, 0.752941, 5e-17, 0.865003, 0.865003,
        0.865003, 1e-16, 0.705882, 0.0156863, 0.14902]
      ScalarRangeInitialized := 1.0 }
  let pressurePWF : OpacityTransferFunction :=
    { arrayName := "pressure"
      Points := [0.0, 0.0, 0.5, 0.0, 1e-16, 1.0, 0.5, 0.0]
      ScalarRangeInitialized := 1 }
  let visnek3dDisplay : Display :=
    { ColorArrayName := ["POINTS", "pressure"]
      LookupTableArrayName := pressureLUT.arrayName
      ScalarOpacityUnitDistance := 0.01546473935329355
      scalarBarVisible := true }
  let pressureLUTColorBar : ScalarBar := { Title := "pressure", ComponentTitle := "" }
  let pipeline : Pipeline :=
    { renderView1 := renderView1
      visnek3d := visnek3d
      parallelUnstructuredGridWriter1 := parallelUnstructuredGridWriter1
      pressureLUT := pressureLUT
      pressurePWF := pressurePWF
      visnek3dDisplay := visnek3dDisplay
      pressureLUTColorBar := pressureLUTColorBar }
  let cop' : CoProcessorState :=
    { cop with
      registeredViews := cop.registeredViews ++ [viewReg]
      registeredWriters := cop.registeredWriters ++ [writerReg] }
  (pipeline, cop',
    [ .disableFirstRenderCameraReset,
      .createView "RenderView",
      .registerView "image_%t.png" 1 1 1 1546 836,
      .createProducer "input",
      .createXMLPUnstructuredGridWriter "input",
      .registerWriter "filename_%t.pvtu" 1,
      .getColorTransferFunction "pressure",
      .getOpacityTransferFunction "pressure",
      .showData "visnek3d",
      .setScalarBarVisibility true,
      .getScalarBar "pressureLUT" ])

/-- The `CoProcessor.CreatePipeline` method: delegates to `_CreatePipeline`
with the coprocessor itself, storing the resulting pipeline. -/
def CreatePipeline (cop : CoProcessorState) (dd : DataDescription) :
    Pipeline × CoProcessorState × List HostCall :=
  _CreatePipeline cop dd

/-- `CreateCoProcessor()`: constructs the coprocessor and sets its update
frequencies to `{'input': [1, 1]}`. -/
def CreateCoProcessor : CoProcessorState :=
  { registeredViews := []
    registeredWriters := []
    updateFrequencies := [("input", [1, 1])]
    liveVisualization := none }

/-- `coprocessor.EnableLiveVisualization(enable, frequency)`. -/
def EnableLiveVisualization (cop : CoProcessorState) (enable : Bool) (frequency : Nat) :
    CoProcessorState :=
  { cop with liveVisualization := some (enable, frequency) }

/-- The module-level `coprocessor` global: built by `CreateCoProcessor()` and
then enabled for live visualization with `EnableLiveVisualization(True, 1)`,
all at import time, before either callback can run. -/
def coprocessor : CoProcessorState :=
  EnableLiveVisualization CreateCoProcessor true 1

/-- The host calls performed at module import time (after the `def`s): the
construction-time `SetUpdateFrequencies` call inside `CreateCoProcessor()`
and the module-level `EnableLiveVisualization(True, 1)` call. -/
def moduleInitTrace : List HostCall :=
  [ .setUpdateFrequencies [("input", [1, 1])],
    .enableLiveVisualization true 1 ]

/-- Trace of host calls performed by `RequestDataDescription(datadescription)`
parameterised by the coprocessor it operates on: if `GetForceOutput()` is
true, turn all fields and mesh generation on for each input description and
return; otherwise call `coprocessor.LoadRequestedData(datadescription)`. -/
def RequestDataDescriptionWith (cop : CoProcessorState) (dd : DataDescription) :
    List HostCall :=
  if dd.GetForceOutput = true then
    (List.range dd.GetNumberOfInputDescriptions).flatMap
      (fun i => [.allFieldsOn i, .generateMeshOn i])
  else
    [.loadRequestedData]

/-- The top-level callback `RequestDataDescription`: operates on the global
`coprocessor`. -/
def RequestDataDescription (dd : DataDescription) : List HostCall :=
  RequestDataDescriptionWith coprocessor dd

/-- Trace of host calls performed by `DoCoProcessing(datadescription)`
parameterised by the coprocessor it operates on: `UpdateProducers`,
`WriteData`, `WriteImages` with `rescale_lookuptable=False`, then
`DoLiveVisualization` at `"localhost"`, port `22222`. -/
def DoCoProcessingWith (cop : CoProcessorState) (dd : DataDescription) :
    List HostCall :=
  [ .updateProducers,
    .writeData,
    .writeImages false,
    .doLiveVisualization "localhost" 22222 ]

/-- The top-level callback `DoCoProcessing`: operates on the global
`coprocessor`. -/
def DoCoProcessing (dd : DataDescription) : List HostCall :=
  DoCoProcessingWith coprocessor dd

/-- A top-level `def` of the Python module: its name and its parameter
names, transcribed from the source. -/
structure TopLevelDef where
  name : String
  params : List String
deriving DecidableEq, Repr

/-- All top-level `def`s of `SimplePipeLine.py`, in source order. -/
def moduleTopLevelDefs : List TopLevelDef :=
  [ { name := "CreateCoProcessor", params := [] },
    { name := "RequestDataDescription", params := ["datadescription"] },
    { name := "DoCoProcessing", params := ["datadescription"] } ]

/-- A top-level def is a callback hook of the adaptor contract when it takes
exactly the single `datadescription` argument. -/
def isCallbackHook (d : TopLevelDef) : Bool :=
  d.params = ["datadescription"]

/-- Execute a sequence of host calls against a fallible host, in order, with
no error handler: the first error aborts the sequence and is returned
unchanged. -/
def runCalls {ε : Type} (host : HostCall → Except ε Unit) : List HostCall → Except ε Unit
  | [] => Except.ok ()
  | c :: cs => host c >>= fun _ => runCalls host cs

/-- The `for i in range(...)` loop body of `RequestDataDescription`, over a
fallible host: `AllFieldsOn` then `GenerateMeshOn` for each index. -/
def requestLoopE {ε : Type} (host : HostCall → Except ε Unit) : List Nat → Except ε Unit
  | [] => Except.ok ()
  | i :: is =>
    host (.allFieldsOn i) >>= fun _ =>
    host (.generateMeshOn i) >>= fun _ =>
    requestLoopE host is

/-- `RequestDataDescription` over a fallible host, embedded directly from the
source: no try/except, every operation a direct delegation. -/
def RequestDataDescriptionE {ε : Type} (host : HostCall → Except ε Unit)
    (dd : DataDescription) : Except ε Unit :=
  if dd.GetForceOutput = true then
    requestLoopE host (List.range dd.GetNumberOfInputDescriptions)
  else
    host .loadRequestedData

/-- `DoCoProcessing` over a fallible host, embedded directly from the source:
four delegations in sequence, no try/except. -/
def DoCoProcessingE {ε : Type} (host : HostCall → Except ε Unit)
    (dd : DataDescription) : Except ε Unit :=
  host .updateProducers >>= fun _ =>
  host .writeData >>= fun _ =>
  host (.writeImages false) >>= fun _ =>
  host (.doLiveVisualization "localhost" 22222)

/-- Host calls that register an output artifact with the coprocessor. -/
def isOutputRegistration : HostCall → Bool
  | HostCall.registerView _ _ _ _ _ _ => true
  | HostCall.registerWriter _ _ => true
  | _ => false

/-- Host calls that create a pipeline node (view, producer, writer, or
transfer function). -/
def isNodeCreation : HostCall → Bool
  | HostCall.createView _ => true
  | HostCall.createProducer _ => true
  | HostCall.createXMLPUnstructuredGridWriter _ => true
  | HostCall.getColorTransferFunction _ => true
  | HostCall.getOpacityTransferFunction _ => true
  | _ => false

/-- The live-visualization invocation. -/
def isDoLiveVisualization : HostCall → Bool
  | HostCall.doLiveVisualization _ _ => true
  | _ => false

/-- Synchronization, thread/process spawning, and scheduling primitives. -/
def isConcurrencyCall : HostCall → Bool
  | HostCall.acquireLock => true
  | HostCall.spawnThread => true
  | HostCall.spawnProcess => true
  | HostCall.scheduleWork => true
  | _ => false

theorem except_bind_ok {ε : Type} (x : Except ε Unit) :
    (x >>= fun _ => Except.ok ()) = x := by
  cases x with
  | error e => rfl
  | ok a => cases a; rfl

theorem requestLoopE_eq_runCalls {ε : Type} (host : HostCall → Except ε Unit)
    (is : List Nat) :
    requestLoopE host is =
      runCalls host (is.flatMap fun i => [HostCall.allFieldsOn i, HostCall.generateMeshOn i]) := by
  induction is with
  | nil => rfl
  | cons i is ih =>
    simp only [requestLoopE, List.flatMap_cons, List.cons_append, List.nil_append,
      runCalls, ih]
    rfl

theorem runCalls_error_mem {ε : Type} (host : HostCall → Except ε Unit)
    (t : List HostCall) (e : ε) (h : runCalls host t = Except.error e) :
    ∃ c ∈ t, host c = Except.error e := by
  induction t with
  | nil => exact absurd h (by simp [runCalls])
  | cons c cs ih =>
    rw [runCalls] at h
    cases hc : host c with
    | error e' =>
      rw [hc] at h
      refine ⟨c, List.mem_cons_self c cs, ?_⟩
      cases h
      exact hc
    | ok a =>
      rw [hc] at h
      obtain ⟨c', hc', he⟩ := ih h
      exact ⟨c', List.mem_cons_of_mem c hc', he⟩

theorem runCalls_singleton {ε : Type} (host : HostCall → Except ε Unit) (c : HostCall) :
    runCalls host [c] = host c := by
  show (host c >>= fun _ => Except.ok ()) = host c
  exact except_bind_ok _

theorem reqE_eq_runCalls {ε : Type} (host : HostCall → Except ε Unit)
    (dd : DataDescription) :
    RequestDataDescriptionE host dd = runCalls host (RequestDataDescription dd) := by
  unfold RequestDataDescriptionE RequestDataDescription RequestDataDescriptionWith
  by_cases h : dd.GetForceOutput = true
  · rw [if_pos h, if_pos h]
    exact requestLoopE_eq_runCalls host _
  · rw [if_neg h, if_neg h, runCalls_singleton]

theorem doE_eq_runCalls {ε : Type} (host : HostCall → Except ε Unit)
    (dd : DataDescription) :
    DoCoProcessingE host dd = runCalls host (DoCoProcessing dd) := by
  simp only [DoCoProcessingE, DoCoProcessing, DoCoProcessingWith, runCalls, except_bind_ok]

/-- C1: the module's top-level defs taking a single `datadescription` argument
are exactly `RequestDataDescription` and `DoCoProcessing`; no other top-level
def is a callback hook of the host adaptor contract. -/
theorem c1_exactly_two_callback_hooks :
    moduleTopLevelDefs.filter isCallbackHook =
      [{ name := "RequestDataDescription", params := ["datadescription"] },
       { name := "DoCoProcessing", params := ["datadescription"] }] := by
  rfl

/-- C2: `_CreatePipeline` registers exactly two output artifacts with the
coprocessor: the render view under filename pattern `image_%t.png` and the
parallel unstructured-grid writer under `filename_%t.pvtu`; the resulting
coprocessor state holds exactly those two registrations. -/
theorem c2_registered_output_artifacts (cop : CoProcessorState) (dd : DataDescription) :
    ((_CreatePipeline cop dd).2.2.filter isOutputRegistration =
      [HostCall.registerView "image_%t.png" 1 1 1 1546 836,
       HostCall.registerWriter "filename_%t.pvtu" 1]) ∧
    (_CreatePipeline coprocessor dd).2.1.registeredViews =
      [{ filename := "image_%t.png", freq := 1, fittoscreen := 1, magnification := 1,
         width := 1546, height := 836 }] ∧
    (_CreatePipeline coprocessor dd).2.1.registeredWriters =
      [{ filename := "filename_%t.pvtu", freq := 1 }] := by
  exact ⟨rfl, rfl, rfl⟩

/-- C3: for every `datadescription`, `DoCoProcessing` performs exactly one
live-visualization call, with host `"localhost"` and port `22222`, and its
whole trace is a constant independent of the input. -/
theorem c3_live_visualization_endpoint (dd : DataDescription) :
    (DoCoProcessing dd).filter isDoLiveVisualization =
      [HostCall.doLiveVisualization "localhost" 22222] ∧
    ∀ dd' : DataDescription, DoCoProcessing dd = DoCoProcessing dd' :=
  ⟨rfl, fun _ => rfl⟩

/-- C4: the pipeline built by `CreatePipeline` creates exactly one render
view, one producer bound to the simulation input `"input"`, one parallel
unstructured-grid writer whose input is that producer, and two transfer
functions (color and opacity) for the scalar field `"pressure"`; no other
pipeline node is created. -/
theorem c4_pipeline_node_inventory (cop : CoProcessorState) (dd : DataDescription) :
    ((CreatePipeline cop dd).2.2.filter isNodeCreation =
      [HostCall.createView "RenderView",
       HostCall.createProducer "input",
       HostCall.createXMLPUnstructuredGridWriter "input",
       HostCall.getColorTransferFunction "pressure",
       HostCall.getOpacityTransferFunction "pressure"]) ∧
    (CreatePipeline cop dd).1.visnek3d.inputName = "input" ∧
    (CreatePipeline cop dd).1.parallelUnstructuredGridWriter1.Input =
      (CreatePipeline cop dd).1.visnek3d ∧
    (CreatePipeline cop dd).1.pressureLUT.arrayName = "pressure" ∧
    (CreatePipeline cop dd).1.pressurePWF.arrayName = "pressure" := by
  exact ⟨rfl, rfl, rfl, rfl, rfl⟩

/-- C5: over an arbitrary fallible host, each callback is exactly the
handler-free sequential execution of its host-call trace, and any error a
host method raises surfaces unchanged: an erroring run exhibits a host call
of the trace that returned precisely that error. -/
theorem c5_no_error_handling {ε : Type} (host : HostCall → Except ε Unit)
    (dd : DataDescription) :
    RequestDataDescriptionE host dd = runCalls host (RequestDataDescription dd) ∧
    DoCoProcessingE host dd = runCalls host (DoCoProcessing dd) ∧
    (∀ e : ε, RequestDataDescriptionE host dd = Except.error e →
      ∃ c ∈ RequestDataDescription dd, host c = Except.error e) ∧
    (∀ e : ε, DoCoProcessingE host dd = Except.error e →
      ∃ c ∈ DoCoProcessing dd, host c = Except.error e) := by
  refine ⟨reqE_eq_runCalls host dd, doE_eq_runCalls host dd, ?_, ?_⟩
  · intro e he
    exact runCalls_error_mem host _ e ((reqE_eq_runCalls host dd).symm.trans he)
  · intro e he
    exact runCalls_error_mem host _ e ((doE_eq_runCalls host dd).symm.trans he)

/-- Witness for C5 at a concrete host that fails on every call. -/
theorem c5_no_error_handling_witness :
    ∃ c ∈ DoCoProcessing ⟨false, 0⟩,
      (fun _ : HostCall => (Except.error 0 : Except Nat Unit)) c = Except.error 0 :=
  (c5_no_error_handling (fun _ => (Except.error 0 : Except Nat Unit)) ⟨false, 0⟩).2.2.2 0 rfl

/-- C6: no trace of the module — import-time initialisation, pipeline
construction, or either callback — contains a lock acquisition, thread or
process spawn, or work-scheduling call. -/
theorem c6_no_concurrency_primitives (cop : CoProcessorState) (dd : DataDescription) :
    (moduleInitTrace.all fun c => !isConcurrencyCall c) = true ∧
    (((_CreatePipeline cop dd).2.2).all fun c => !isConcurrencyCall c) = true ∧
    ((RequestDataDescription dd).all fun c => !isConcurrencyCall c) = true ∧
    ((DoCoProcessing dd).all fun c => !isConcurrencyCall c) = true := by
  refine ⟨rfl, rfl, ?_, rfl⟩
  unfold RequestDataDescription RequestDataDescriptionWith
  by_cases h : dd.GetForceOutput = true
  · rw [if_pos h]
    simp only [List.all_eq_true, List.mem_flatMap, List.mem_range, List.mem_cons,
      List.mem_singleton]
    rintro c ⟨i, _, rfl | rfl | hc⟩
    · rfl
    · rfl
    · exact absurd hc (List.not_mem_nil c)
  · rw [if_neg h]
    rfl

/-- C7: when `GetForceOutput()` is true, `RequestDataDescription` turns all
fields and mesh generation on for each of the `GetNumberOfInputDescriptions()`
input descriptions and never calls `LoadRequestedData`; when it is false, it
performs exactly the single `LoadRequestedData` call and touches no input
description. -/
theorem c7_request_data_description_branches (dd : DataDescription) :
    (dd.GetForceOutput = true →
      RequestDataDescription dd =
        (List.range dd.GetNumberOfInputDescriptions).flatMap
          (fun i => [HostCall.allFieldsOn i, HostCall.generateMeshOn i]) ∧
      HostCall.loadRequestedData ∉ RequestDataDescription dd) ∧
    (dd.GetForceOutput = false →
      RequestDataDescription dd = [HostCall.loadRequestedData] ∧
      ∀ i : Nat, HostCall.allFieldsOn i ∉ RequestDataDescription dd ∧
        HostCall.generateMeshOn i ∉ RequestDataDescription dd) := by
  constructor
  · intro h
    have htr : RequestDataDescription dd =
        (List.range dd.GetNumberOfInputDescriptions).flatMap
          (fun i => [HostCall.allFieldsOn i, HostCall.generateMeshOn i]) := by
      unfold RequestDataDescription RequestDataDescriptionWith
      rw [if_pos h]
    refine ⟨htr, ?_⟩
    rw [htr]
    simp [List.mem_flatMap]
  · intro h
    have htr : RequestDataDescription dd = [HostCall.loadRequestedData] := by
      unfold RequestDataDescription RequestDataDescriptionWith
      rw [if_neg (by rw [h]; exact Bool.false_ne_true)]
    refine ⟨htr, fun i => ⟨?_, ?_⟩⟩
    · intro hmem
      rw [htr] at hmem
      simp at hmem
    · intro hmem
      rw [htr] at hmem
      simp at hmem

/-- Witness for C7 at a forced-output description with two inputs and at an
unforced one. -/
theorem c7_request_data_description_branches_witness :
    RequestDataDescription ⟨true, 2⟩ =
      [HostCall.allFieldsOn 0, HostCall.generateMeshOn 0,
       HostCall.allFieldsOn 1, HostCall.generateMeshOn 1] ∧
    RequestDataDescription ⟨false, 3⟩ = [HostCall.loadRequestedData] := by
  constructor
  · have h := ((c7_request_data_description_branches ⟨true, 2⟩).1 rfl).1
    rw [h]
    rfl
  · exact ((c7_request_data_description_branches ⟨false, 3⟩).2 rfl).1

/-- C8: for every `datadescription`, `DoCoProcessing` performs exactly four
host calls in fixed order — `UpdateProducers`, `WriteData`, `WriteImages`
with `rescale_lookuptable=False`, `DoLiveVisualization("localhost", 22222)`. -/
theorem c8_docoprocessing_call_sequence (dd : DataDescription) :
    DoCoProcessing dd =
      [HostCall.updateProducers, HostCall.writeData, HostCall.writeImages false,
       HostCall.doLiveVisualization "localhost" 22222] := rfl

/-- C9: the import-time global `coprocessor` has update frequencies
`{'input': [1, 1]}` and live visualization enabled with `(True, 1)`; every
view and writer registration carries `freq = 1`; and both top-level callbacks
are the parameterised callbacks applied to this single module-level
instance. -/
theorem c9_module_level_coprocessor (dd : DataDescription) :
    coprocessor.updateFrequencies = [("input", [1, 1])] ∧
    coprocessor.liveVisualization = some (true, 1) ∧
    moduleInitTrace =
      [HostCall.setUpdateFrequencies [("input", [1, 1])],
       HostCall.enableLiveVisualization true 1] ∧
    ((CreatePipeline coprocessor dd).2.1.registeredViews.map (fun r => r.freq) = [1]) ∧
    ((CreatePipeline coprocessor dd).2.1.registeredWriters.map (fun r => r.freq) = [1]) ∧
    RequestDataDescription = RequestDataDescriptionWith coprocessor ∧
    DoCoProcessing = DoCoProcessingWith coprocessor := by
  exact ⟨rfl, rfl, rfl, rfl, rfl, rfl, rfl⟩
